import Mathlib

/-!
Verification of `src/src/simulation/cell/cell_manager.h` (biospheres-2).

A shallow embedding of the header's data model and of every member function it
defines inline.  Machine integers are modelled by `Nat` (with an explicit
`% 2 ^ 64` where the code stores into a `uint64_t`), floating-point quantities
by exact `ℝ` (physics fields) or `ℚ` (configuration / statistics), OpenGL
buffer handles (`GLuint`) by `Nat`, and the `BarrierStats*` pointer held by
`BarrierBatch` by an `Option BarrierStats` carrying the pointee's state.
The C++ counters (`int totalBarriers`, `int bufferRotation`, ...) start at 0
and are only ever incremented or reduced mod 3, so `Nat` is faithful for every
reachable value.
-/

namespace Biospheres

/-- `glm::vec4`: four scalar components, modelled with exact reals. -/
structure Vec4 where
  x : ℝ := 0
  y : ℝ := 0
  z : ℝ := 0
  w : ℝ := 0

/-- `glm::quat`: quaternion with scalar part `w`, modelled with exact reals. -/
structure Quat where
  w : ℝ := 0
  x : ℝ := 0
  y : ℝ := 0
  z : ℝ := 0

/-- The `ComputeCell` record of `cell_manager.h` (field for field, with the
same default member initializers).  `uniqueID` and `justSplit` are `uint64_t`
values, `padding2` the four `uint32_t` padding words. -/
structure ComputeCell where
  positionAndMass : Vec4 := { x := 0, y := 0, z := 0, w := 1 }
  velocity : Vec4 := {}
  acceleration : Vec4 := {}
  orientation : Quat := { w := 1, x := 0, y := 0, z := 0 }
  angularVelocity : Quat := { w := 1, x := 0, y := 0, z := 0 }
  angularAcceleration : Quat := { w := 1, x := 0, y := 0, z := 0 }
  signallingSubstances : Vec4 := {}
  modeIndex : Int := 0
  age : ℝ := 0
  toxins : ℝ := 0
  nitrates : ℝ := 1
  uniqueID : Nat := 0
  justSplit : Nat := 0
  padding2 : Fin 4 → Nat := fun _ => 0

/-- `ComputeCell::getRadius`: `pow(positionAndMass.w, 1.0f/3.0f)`, idealized
over the reals as the real power `w ^ (1/3)`. -/
noncomputable def ComputeCell.getRadius (c : ComputeCell) : ℝ :=
  c.positionAndMass.w ^ ((1 : ℝ) / 3)

/-- `ComputeCell::getParentID`: `(uniqueID >> 32) & 0xFFFFFFFF`. -/
def ComputeCell.getParentID (c : ComputeCell) : Nat :=
  (c.uniqueID >>> 32) &&& 0xFFFFFFFF

/-- `ComputeCell::getCellID`: `(uniqueID >> 1) & 0x7FFFFFFF`. -/
def ComputeCell.getCellID (c : ComputeCell) : Nat :=
  (c.uniqueID >>> 1) &&& 0x7FFFFFFF

/-- `ComputeCell::getChildFlag`: `uniqueID & 0x1`. -/
def ComputeCell.getChildFlag (c : ComputeCell) : Nat :=
  c.uniqueID &&& 0x1

/-- `ComputeCell::setUniqueID`: packs
`(uint64)parentID << 32 | (uint64)(cellID & 0x7FFFFFFF) << 1 | (childFlag & 0x1)`
into the `uint64_t` field (hence the final `% 2 ^ 64`).  `parentID`/`cellID`
model `uint32_t` arguments and `childFlag` a `uint8_t` argument. -/
def ComputeCell.setUniqueID (c : ComputeCell) (parentID cellID childFlag : Nat) :
    ComputeCell :=
  { c with uniqueID :=
      ((parentID <<< 32) ||| ((cellID &&& 0x7FFFFFFF) <<< 1) ||| (childFlag &&& 0x1))
        % 2 ^ 64 }

/-- `CellManager::BarrierStats`: the barrier efficiency counters.  The `float`
efficiency ratio is idealized as an exact rational. -/
structure BarrierStats where
  totalBarriers : Nat := 0
  batchedBarriers : Nat := 0
  flushCalls : Nat := 0
  barrierEfficiency : ℚ := 0

/-- `BarrierStats::reset`. -/
def BarrierStats.reset (_s : BarrierStats) : BarrierStats :=
  { totalBarriers := 0, batchedBarriers := 0, flushCalls := 0, barrierEfficiency := 0 }

/-- `BarrierStats::updateEfficiency`: divides only under the
`totalBarriers > 0` guard. -/
def BarrierStats.updateEfficiency (s : BarrierStats) : BarrierStats :=
  if s.totalBarriers > 0 then
    { s with barrierEfficiency := (s.batchedBarriers : ℚ) / (s.totalBarriers : ℚ) }
  else s

/-- `CellManager::BarrierBatch`.  `pendingBarriers` is the `GLbitfield` mask
(a `Nat` bitmask); the `BarrierStats*` pointer is modelled by an
`Option BarrierStats` holding the pointee (`none` = null pointer). -/
structure BarrierBatch where
  pendingBarriers : Nat := 0
  needsFlush : Bool := false
  stats : Option BarrierStats := none

/-- `BarrierBatch::addBarrier`: ORs the barrier into the pending mask, then —
when a stats sink is attached — bumps `totalBarriers` and bumps
`batchedBarriers` exactly when the new pending mask differs from the
requested barrier. -/
def BarrierBatch.addBarrier (b : BarrierBatch) (barrier : Nat) : BarrierBatch :=
  let pending := b.pendingBarriers ||| barrier
  { b with
    pendingBarriers := pending
    stats := b.stats.map fun s =>
      { s with
        totalBarriers := s.totalBarriers + 1
        batchedBarriers := s.batchedBarriers + if pending ≠ barrier then 1 else 0 } }

/-- `BarrierBatch::flush`: when the pending mask is non-empty it calls
`glMemoryBarrier(pendingBarriers)` (the issued masks are returned as the
second component of the result), zeroes the mask and updates the stats; in
every case it clears `needsFlush`. -/
def BarrierBatch.flush (b : BarrierBatch) : BarrierBatch × List Nat :=
  if b.pendingBarriers ≠ 0 then
    ({ b with
        pendingBarriers := 0
        needsFlush := false
        stats := b.stats.map fun s =>
          BarrierStats.updateEfficiency { s with flushCalls := s.flushCalls + 1 } },
     [b.pendingBarriers])
  else
    ({ b with needsFlush := false }, [])

/-- `BarrierBatch::clear`. -/
def BarrierBatch.clear (b : BarrierBatch) : BarrierBatch :=
  { b with pendingBarriers := 0, needsFlush := false }

/-- `BarrierBatch::setStats`. -/
def BarrierBatch.setStats (b : BarrierBatch) (statsPtr : Option BarrierStats) :
    BarrierBatch :=
  { b with stats := statsPtr }

/-- The default LOD distance thresholds:
`float lodDistances[4] = {20.0f, 60.0f, 150.0f, 250.0f};`. -/
def lodDistancesDefault : List ℚ := [20, 60, 150, 250]

/-- The mutable state of `CellManager` that the inline-defined member
functions touch.  `cellBuffer` is the triple-buffered array of `GLuint`
handles; `spawnRadius` and `cellLimit` are initialized from `config.h`
constants whose values are supplied by the caller here.  In the source,
`BarrierBatch::stats` points at the manager's `barrierStats` member after
`setStats(&barrierStats)`; that pointee is carried inside
`barrierBatch.stats`. -/
structure CellManager where
  cellBuffer : Fin 3 → Nat := fun _ => 0
  instanceBuffer : Nat := 0
  bufferRotation : Nat := 0
  lodDistances : List ℚ := lodDistancesDefault
  useLODSystem : Bool := true
  useFrustumCulling : Bool := true
  visibleCellCount : Int := 0
  cellCount : Int := 0
  spawnRadius : ℚ
  cellLimit : Int
  barrierBatch : BarrierBatch := {}

/-- `CellManager::getRotatedIndex`: `(index + bufferRotation) % max`. -/
def CellManager.getRotatedIndex (m : CellManager) (index mx : Nat) : Nat :=
  (index + m.bufferRotation) % mx

/-- `CellManager::rotateBuffers`: `bufferRotation = getRotatedIndex(1, 3)`. -/
def CellManager.rotateBuffers (m : CellManager) : CellManager :=
  { m with bufferRotation := m.getRotatedIndex 1 3 }

/-- `CellManager::getCellReadBuffer`: `cellBuffer[getRotatedIndex(0, 3)]`. -/
def CellManager.getCellReadBuffer (m : CellManager) : Nat :=
  m.cellBuffer ⟨m.getRotatedIndex 0 3, Nat.mod_lt _ (by decide)⟩

/-- `CellManager::getCellWriteBuffer`: `cellBuffer[getRotatedIndex(1, 3)]`. -/
def CellManager.getCellWriteBuffer (m : CellManager) : Nat :=
  m.cellBuffer ⟨m.getRotatedIndex 1 3, Nat.mod_lt _ (by decide)⟩

/-- `CellManager::setCellLimit`: `cellLimit = limit;`. -/
def CellManager.setCellLimit (m : CellManager) (limit : Int) : CellManager :=
  { m with cellLimit := limit }

/-- `CellManager::getCellLimit`. -/
def CellManager.getCellLimit (m : CellManager) : Int :=
  m.cellLimit

/-- `CellManager::addBarrier` (the `const` wrapper over the mutable batch). -/
def CellManager.addBarrier (m : CellManager) (barrier : Nat) : CellManager :=
  { m with barrierBatch := m.barrierBatch.addBarrier barrier }

/-- `CellManager::flushBarriers`. -/
def CellManager.flushBarriers (m : CellManager) : CellManager :=
  { m with barrierBatch := (m.barrierBatch.flush).1 }

/-- `CellManager::clearBarriers`. -/
def CellManager.clearBarriers (m : CellManager) : CellManager :=
  { m with barrierBatch := m.barrierBatch.clear }

/-- Names of the data members of `ComputeCell`, in declaration order. -/
inductive FieldName where
  | positionAndMass | velocity | acceleration | orientation
  | angularVelocity | angularAcceleration | signallingSubstances
  | modeIndex | age | toxins | nitrates | uniqueID | justSplit | padding2
  deriving DecidableEq, BEq

/-- Size and alignment (in bytes) of one data member, per the LP64 ABI the
header targets: `float`/`int`/`uint32_t` are 4/4, `uint64_t` is 8/8,
`glm::vec4` and `glm::quat` are structs of four floats (16 bytes, 4-aligned,
default unaligned glm types), `uint32_t[4]` is 16 bytes, 4-aligned. -/
structure CMember where
  name : FieldName
  size : Nat
  align : Nat

/-- The member list of `struct ComputeCell`, in source order. -/
def computeCellMembers : List CMember :=
  [ { name := .positionAndMass, size := 16, align := 4 },
    { name := .velocity, size := 16, align := 4 },
    { name := .acceleration, size := 16, align := 4 },
    { name := .orientation, size := 16, align := 4 },
    { name := .angularVelocity, size := 16, align := 4 },
    { name := .angularAcceleration, size := 16, align := 4 },
    { name := .signallingSubstances, size := 16, align := 4 },
    { name := .modeIndex, size := 4, align := 4 },
    { name := .age, size := 4, align := 4 },
    { name := .toxins, size := 4, align := 4 },
    { name := .nitrates, size := 4, align := 4 },
    { name := .uniqueID, size := 8, align := 8 },
    { name := .justSplit, size := 8, align := 8 },
    { name := .padding2, size := 16, align := 4 } ]

/-- Round `off` up to the next multiple of `a`. -/
def alignUp (off a : Nat) : Nat := ((off + a - 1) / a) * a

/-- Member offsets of a standard-layout struct: each member is placed at the
running offset rounded up to the member's alignment. -/
def memberOffsets : Nat → List CMember → List (FieldName × Nat)
  | _, [] => []
  | off, f :: fs =>
    let o := alignUp off f.align
    (f.name, o) :: memberOffsets (o + f.size) fs

/-- End offset (offset one past the last member) of a standard-layout struct. -/
def structEnd : Nat → List CMember → Nat
  | off, [] => off
  | off, f :: fs => structEnd (alignUp off f.align + f.size) fs

/-- Alignment of the whole struct: maximum member alignment. -/
def structAlign (fs : List CMember) : Nat :=
  fs.foldr (fun f a => Nat.max f.align a) 1

/-- `sizeof(ComputeCell)`: end offset rounded up to the struct alignment. -/
def sizeofComputeCell : Nat :=
  alignUp (structEnd 0 computeCellMembers) (structAlign computeCellMembers)

/-- `offsetof(ComputeCell, uniqueID)`. -/
def offsetofUniqueID : Option Nat :=
  (memberOffsets 0 computeCellMembers).lookup FieldName.uniqueID

/-- Concrete cell used to witness the radius theorem: mass 8. -/
def radiusWitnessCell : ComputeCell :=
  { positionAndMass := { x := 0, y := 0, z := 0, w := 8 } }

/-- Concrete barrier batch with an attached (zeroed) stats sink and the
single pending bit `GL_SHADER_STORAGE_BARRIER_BIT`-style mask `1`. -/
def batchPending1 : BarrierBatch :=
  { pendingBarriers := 1, needsFlush := false, stats := some {} }

/-- Concrete barrier batch with pending mask `4` and a zeroed stats sink. -/
def batchPending4 : BarrierBatch :=
  { pendingBarriers := 4, needsFlush := false, stats := some {} }

/-- Concrete manager: three zero buffer handles, spawn radius 5, cell limit
100000. -/
def cm0 : CellManager :=
  { cellBuffer := fun _ => 0, spawnRadius := 5, cellLimit := 100000 }

/-! ## Theorems -/

/-- A pending mask fails to be absorbed by `k` under OR exactly when it has a
set bit outside `k`. -/
theorem lor_ne_right_iff (x k : Nat) :
    x ||| k ≠ k ↔ ∃ i, x.testBit i = true ∧ k.testBit i = false := by
  constructor
  · intro h
    by_contra hc
    push_neg at hc
    apply h
    apply Nat.eq_of_testBit_eq
    intro i
    rw [Nat.testBit_or]
    cases hx : x.testBit i with
    | false => simp
    | true =>
      have hk := hc i hx
      simp only [Bool.not_eq_false] at hk
      simp [hk]
  · rintro ⟨i, hx, hk⟩ h
    have hbit := congrArg (fun n => n.testBit i) h
    simp only [Nat.testBit_or, hx, hk, Bool.true_or] at hbit
    exact Bool.noConfusion hbit

/-- Claim C1: the packed unique id round-trips: for any 32-bit `parentID`,
any `cellID` below `2 ^ 31` and `childFlag` 0 or 1, `setUniqueID` followed by
`getParentID`/`getCellID`/`getChildFlag` recovers the fields, and the packed
word is exactly `parentID * 2 ^ 32 + cellID * 2 + childFlag` — parent in the
high 32 bits, cell in bits 1..31, sibling flag in bit 0. -/
theorem uniqueID_roundtrip (c : ComputeCell) (parentID cellID childFlag : Nat)
    (hp : parentID < 2 ^ 32) (hc : cellID < 2 ^ 31)
    (hf : childFlag = 0 ∨ childFlag = 1) :
    (c.setUniqueID parentID cellID childFlag).getParentID = parentID ∧
    (c.setUniqueID parentID cellID childFlag).getCellID = cellID ∧
    (c.setUniqueID parentID cellID childFlag).getChildFlag = childFlag ∧
    (c.setUniqueID parentID cellID childFlag).uniqueID =
      parentID * 2 ^ 32 + cellID * 2 + childFlag := by
  have hf2 : childFlag < 2 := by rcases hf with h | h <;> omega
  have hmask31 : cellID &&& 0x7FFFFFFF = cellID := by
    have h31 : (0x7FFFFFFF : Nat) = 2 ^ 31 - 1 := by norm_num
    rw [h31, Nat.and_pow_two_sub_one_eq_mod, Nat.mod_eq_of_lt hc]
  have hmask1 : childFlag &&& 0x1 = childFlag := by
    rw [Nat.and_one_is_mod, Nat.mod_eq_of_lt hf2]
  have henc : (parentID <<< 32) ||| ((cellID &&& 0x7FFFFFFF) <<< 1) ||| (childFlag &&& 0x1)
      = parentID * 2 ^ 32 + cellID * 2 + childFlag := by
    rw [hmask31, hmask1, Nat.shiftLeft_eq, Nat.shiftLeft_eq]
    calc parentID * 2 ^ 32 ||| cellID * 2 ^ 1 ||| childFlag
        = (2 ^ 32 * parentID ||| cellID * 2 ^ 1) ||| childFlag := by
          rw [Nat.mul_comm parentID]
      _ = (2 ^ 32 * parentID + cellID * 2 ^ 1) ||| childFlag := by
          rw [← Nat.mul_add_lt_is_or (by omega) parentID]
      _ = 2 ^ 1 * (2 ^ 31 * parentID + cellID) ||| childFlag := by
          congr 1
          ring
      _ = 2 ^ 1 * (2 ^ 31 * parentID + cellID) + childFlag := by
          rw [← Nat.mul_add_lt_is_or (by omega) (2 ^ 31 * parentID + cellID)]
      _ = parentID * 2 ^ 32 + cellID * 2 + childFlag := by ring
  have hlt : parentID * 2 ^ 32 + cellID * 2 + childFlag < 2 ^ 64 := by
    have h32 : (2 : Nat) ^ 32 = 4294967296 := by norm_num
    have h31 : (2 : Nat) ^ 31 = 2147483648 := by norm_num
    have h64 : (2 : Nat) ^ 64 = 18446744073709551616 := by norm_num
    rw [h32, h64]
    rw [h32] at hp
    rw [h31] at hc
    nlinarith
  have hid : (c.setUniqueID parentID cellID childFlag).uniqueID =
      parentID * 2 ^ 32 + cellID * 2 + childFlag := by
    show ((parentID <<< 32) ||| ((cellID &&& 0x7FFFFFFF) <<< 1) ||| (childFlag &&& 0x1))
        % 2 ^ 64 = _
    rw [henc, Nat.mod_eq_of_lt hlt]
  refine ⟨?_, ?_, ?_, hid⟩
  · show ((c.setUniqueID parentID cellID childFlag).uniqueID >>> 32) &&& 0xFFFFFFFF = parentID
    rw [hid, Nat.shiftRight_eq_div_pow]
    have h32 : (0xFFFFFFFF : Nat) = 2 ^ 32 - 1 := by norm_num
    rw [h32, Nat.and_pow_two_sub_one_eq_mod]
    omega
  · show ((c.setUniqueID parentID cellID childFlag).uniqueID >>> 1) &&& 0x7FFFFFFF = cellID
    rw [hid, Nat.shiftRight_eq_div_pow]
    have h31 : (0x7FFFFFFF : Nat) = 2 ^ 31 - 1 := by norm_num
    rw [h31, Nat.and_pow_two_sub_one_eq_mod]
    omega
  · show (c.setUniqueID parentID cellID childFlag).uniqueID &&& 0x1 = childFlag
    rw [hid, Nat.and_one_is_mod]
    omega

/-- Witness for C1 at `parentID = 305419896`, `cellID = 1234567`,
`childFlag = 1` on a default cell. -/
theorem uniqueID_roundtrip_witness :
    (({} : ComputeCell).setUniqueID 305419896 1234567 1).getParentID = 305419896 ∧
    (({} : ComputeCell).setUniqueID 305419896 1234567 1).getCellID = 1234567 ∧
    (({} : ComputeCell).setUniqueID 305419896 1234567 1).getChildFlag = 1 ∧
    (({} : ComputeCell).setUniqueID 305419896 1234567 1).uniqueID =
      305419896 * 2 ^ 32 + 1234567 * 2 + 1 :=
  uniqueID_roundtrip {} 305419896 1234567 1 (by norm_num) (by norm_num) (Or.inr rfl)

/-- Claim C2 counterexample: with pending mask `1` already accumulated
(non-empty) and a zeroed stats sink attached, `addBarrier(1)` bumps
`totalBarriers` but does NOT bump `batchedBarriers`, because after the OR the
pending mask still equals the requested kind — refuting the claim that a
batched hit is recorded exactly when the pending mask was non-empty before
the call. -/
theorem addBarrier_claim_counterexample :
    batchPending1.pendingBarriers ≠ 0 ∧
    (batchPending1.addBarrier 1).stats.map BarrierStats.totalBarriers = some 1 ∧
    (batchPending1.addBarrier 1).stats.map BarrierStats.batchedBarriers = some 0 := by
  refine ⟨by decide, by decide, by decide⟩

/-- Claim C2 (amended): `addBarrier(k)` ORs `k` into the pending mask, leaves
`needsFlush` alone and, when a stats sink is attached, increments
`totalBarriers` and increments `batchedBarriers` exactly when the pending
mask after the OR differs from `k` — equivalently, exactly when the pending
mask before the call contained a bit outside `k` (not merely when it was
non-empty). -/
theorem addBarrier_spec (b : BarrierBatch) (k : Nat) (s : BarrierStats)
    (h : b.stats = some s) :
    (b.addBarrier k).pendingBarriers = b.pendingBarriers ||| k ∧
    (b.addBarrier k).needsFlush = b.needsFlush ∧
    (b.addBarrier k).stats = some
      { s with
        totalBarriers := s.totalBarriers + 1
        batchedBarriers := s.batchedBarriers +
          if b.pendingBarriers ||| k ≠ k then 1 else 0 } ∧
    (b.pendingBarriers ||| k ≠ k ↔
      ∃ i, b.pendingBarriers.testBit i = true ∧ k.testBit i = false) := by
  refine ⟨rfl, rfl, ?_, lor_ne_right_iff _ _⟩
  simp [BarrierBatch.addBarrier, h]

/-- Witness for the amended C2 at pending mask `4`, requested kind `1`
(a genuine batched hit: bit 2 is outside kind `1`). -/
theorem addBarrier_spec_witness :
    (batchPending4.addBarrier 1).stats = some
      { totalBarriers := 1, batchedBarriers := 1, flushCalls := 0,
        barrierEfficiency := 0 } :=
  ((addBarrier_spec batchPending4 1 {} rfl).2.2.1).trans rfl

/-- Claim C3: `rotateBuffers` advances the rotation counter by exactly one
modulo 3, and three consecutive rotations restore the read/write buffer-slot
assignment (both the selected indices and the selected handles). -/
theorem rotateBuffers_three_cycle (m : CellManager) :
    (m.rotateBuffers).bufferRotation = (m.bufferRotation + 1) % 3 ∧
    ((m.rotateBuffers).rotateBuffers).rotateBuffers.getRotatedIndex 0 3 =
      m.getRotatedIndex 0 3 ∧
    ((m.rotateBuffers).rotateBuffers).rotateBuffers.getRotatedIndex 1 3 =
      m.getRotatedIndex 1 3 ∧
    ((m.rotateBuffers).rotateBuffers).rotateBuffers.getCellReadBuffer =
      m.getCellReadBuffer ∧
    ((m.rotateBuffers).rotateBuffers).rotateBuffers.getCellWriteBuffer =
      m.getCellWriteBuffer := by
  have hidx : ∀ i : Nat,
      ((m.rotateBuffers).rotateBuffers).rotateBuffers.getRotatedIndex i 3 =
        m.getRotatedIndex i 3 := by
    intro i
    simp only [CellManager.rotateBuffers, CellManager.getRotatedIndex]
    omega
  refine ⟨?_, hidx 0, hidx 1, ?_, ?_⟩
  · simp only [CellManager.rotateBuffers, CellManager.getRotatedIndex]
    omega
  · exact congrArg m.cellBuffer (Fin.ext (hidx 0))
  · exact congrArg m.cellBuffer (Fin.ext (hidx 1))

/-- Claim C9: for every rotation-counter value the read slot and the write
slot of the three-element `cellBuffer` array are distinct, and immediately
after one `rotateBuffers` the new read buffer is the slot that was the write
buffer before the call. -/
theorem readWriteBuffer_distinct (m : CellManager) :
    m.getRotatedIndex 0 3 ≠ m.getRotatedIndex 1 3 ∧
    (m.rotateBuffers).getRotatedIndex 0 3 = m.getRotatedIndex 1 3 ∧
    (m.rotateBuffers).getCellReadBuffer = m.getCellWriteBuffer := by
  have hidx : (m.rotateBuffers).getRotatedIndex 0 3 = m.getRotatedIndex 1 3 := by
    simp only [CellManager.rotateBuffers, CellManager.getRotatedIndex]
    omega
  refine ⟨?_, hidx, ?_⟩
  · simp only [CellManager.getRotatedIndex]
    omega
  · exact congrArg m.cellBuffer (Fin.ext hidx)

/-- Claim C4 counterexample: `setCellLimit(5)` is a runtime operation that
changes the cell-capacity limit from 100000 to 5 while leaving every buffer
handle exactly as allocated — no reallocation happens. -/
theorem setCellLimit_counterexample :
    cm0.cellLimit = 100000 ∧
    (cm0.setCellLimit 5).cellLimit = 5 ∧
    (cm0.setCellLimit 5).cellBuffer = cm0.cellBuffer ∧
    (cm0.setCellLimit 5).instanceBuffer = cm0.instanceBuffer :=
  ⟨rfl, rfl, rfl, rfl⟩

/-- Claim C4 (amended): the compile-time constants `MAX_CELLS` and
`DEFAULT_CELL_COUNT` are fixed, but the runtime `cellLimit` field is NOT
immutable: `setCellLimit` overwrites it (touching no buffer), and it is the
only inline-defined operation that does — rotation and the barrier
operations all preserve it. -/
theorem cellLimit_mutation_profile (m : CellManager) (limit : Int) (k : Nat) :
    (m.setCellLimit limit).cellLimit = limit ∧
    (m.setCellLimit limit).cellBuffer = m.cellBuffer ∧
    (m.setCellLimit limit).instanceBuffer = m.instanceBuffer ∧
    (m.setCellLimit limit).bufferRotation = m.bufferRotation ∧
    (m.rotateBuffers).cellLimit = m.cellLimit ∧
    (m.addBarrier k).cellLimit = m.cellLimit ∧
    (m.flushBarriers).cellLimit = m.cellLimit ∧
    (m.clearBarriers).cellLimit = m.cellLimit :=
  ⟨rfl, rfl, rfl, rfl, rfl, rfl, rfl, rfl⟩

/-- `updateEfficiency` never touches the `flushCalls` counter. -/
theorem updateEfficiency_flushCalls (s : BarrierStats) :
    (s.updateEfficiency).flushCalls = s.flushCalls := by
  unfold BarrierStats.updateEfficiency
  split
  · rfl
  · rfl

/-- Claim C5: `flush` issues exactly one combined barrier carrying the whole
pending mask when that mask is non-empty and none otherwise, always leaves
the pending mask empty and `needsFlush` false, and leaves `flushCalls`
untouched when the mask was already empty. -/
theorem flush_spec (b : BarrierBatch) :
    (b.flush).1.pendingBarriers = 0 ∧
    (b.flush).1.needsFlush = false ∧
    (b.flush).2 = (if b.pendingBarriers ≠ 0 then [b.pendingBarriers] else []) ∧
    (b.flush).1.stats.map BarrierStats.flushCalls =
      (if b.pendingBarriers ≠ 0 then b.stats.map (fun s => s.flushCalls + 1)
       else b.stats.map BarrierStats.flushCalls) := by
  by_cases h : b.pendingBarriers = 0 <;>
    cases hs : b.stats <;>
      simp [BarrierBatch.flush, h, hs, updateEfficiency_flushCalls]

/-- Claim C10: `updateEfficiency` leaves every counter untouched; it leaves
`barrierEfficiency` unchanged when `totalBarriers` is zero (no division
happens) and sets it to `batchedBarriers / totalBarriers` when
`totalBarriers` is positive. -/
theorem updateEfficiency_spec (s : BarrierStats) :
    (s.updateEfficiency).totalBarriers = s.totalBarriers ∧
    (s.updateEfficiency).batchedBarriers = s.batchedBarriers ∧
    (s.updateEfficiency).flushCalls = s.flushCalls ∧
    (s.updateEfficiency).barrierEfficiency =
      (if s.totalBarriers > 0 then (s.batchedBarriers : ℚ) / (s.totalBarriers : ℚ)
       else s.barrierEfficiency) := by
  by_cases h : s.totalBarriers > 0 <;> simp [BarrierStats.updateEfficiency, h]

/-- Claim C8: the default LOD distance thresholds are exactly
20, 60, 150, 250 and form a strictly ascending list. -/
theorem lodDistances_default_ascending :
    lodDistancesDefault = [20, 60, 150, 250] ∧
    List.Chain' (fun a b : ℚ => a < b) lodDistancesDefault := by
  refine ⟨rfl, ?_⟩
  unfold lodDistancesDefault
  norm_num [List.chain'_cons, List.chain'_singleton]

/-- Claim C6: the `ComputeCell` record layout has total size 160 bytes — a
multiple of 16 — and places the 64-bit `uniqueID` field at offset 128, a
multiple of 8 (the properties the header's own `static_assert`s demand). -/
theorem computeCell_layout :
    sizeofComputeCell = 160 ∧
    sizeofComputeCell % 16 = 0 ∧
    offsetofUniqueID = some 128 ∧
    offsetofUniqueID.map (fun o => o % 8) = some 0 := by
  refine ⟨rfl, rfl, rfl, rfl⟩

/-- Claim C7: for every cell of non-negative mass, `getRadius` is the real
cube root of the mass: it equals `mass ^ (1/3)` and its cube is the mass. -/
theorem getRadius_is_cbrt (c : ComputeCell) (h : 0 ≤ c.positionAndMass.w) :
    c.getRadius = c.positionAndMass.w ^ ((1 : ℝ) / 3) ∧
    c.getRadius ^ (3 : ℕ) = c.positionAndMass.w := by
  refine ⟨rfl, ?_⟩
  rw [ComputeCell.getRadius,
      ← Real.rpow_natCast (c.positionAndMass.w ^ ((1 : ℝ) / 3)) 3,
      ← Real.rpow_mul h]
  norm_num

/-- Witness for C7 at a concrete cell of mass 8: the radius cubed is 8. -/
theorem getRadius_is_cbrt_witness :
    radiusWitnessCell.getRadius = (8 : ℝ) ^ ((1 : ℝ) / 3) ∧
    radiusWitnessCell.getRadius ^ (3 : ℕ) = 8 :=
  getRadius_is_cbrt radiusWitnessCell (by norm_num [radiusWitnessCell])

end Biospheres
